import Mathlib

/-!
Verification of the Internshala job-scraper pipeline
(`helper/JobScraper.py`, `helper/URLConverter.py`, `app.py`).

The Python code is shallowly embedded:

* An HTML listing container (`job_element`) is a `JobElement`: a map from
  selector queries to `FindResult`, where `FindResult.raise` models a raised
  exception at the DOM-accessor call (the only foreign calls inside the
  extractor; the remaining operations are pure string/dict manipulation
  that cannot raise).
* A fetched page's parsed body is a `Soup`: a map from CSS selector strings
  to the list of matching containers (`soup.select`).
* The network is a function `String → FetchOutcome` from URL to what
  `session.get` produces: a response with a status code, or a raised
  `requests` exception (`netError`, which also covers exhausted retries,
  DNS failure, connection refusal and timeouts — all of these surface as a
  `RequestException` from `session.get`).
* `scrape_jobs` is instrumented: besides the aggregated records it returns
  the list of URLs fetched, in order, so that pagination claims about which
  pages are requested can be stated.

String operations (`strip`, `lower`, `replace`, `split`, `in`,
`startswith`, `urllib.parse.quote`) are given structurally recursive
models over `List Char` so that all definitions evaluate inside the kernel.
Case mapping and whitespace are the ASCII fragments, which cover every
string the source manipulates.
-/

/-- Python `str.startswith`: is `pat` an initial segment of the list? -/
def listIsPre : List Char → List Char → Bool
  | [], _ => true
  | _ :: _, [] => false
  | p :: ps, c :: cs => p = c && listIsPre ps cs

/-- Python `pat in s` on character lists: does `pat` occur as a contiguous
sublist? -/
def containsList (pat : List Char) : List Char → Bool
  | [] => listIsPre pat []
  | c :: cs => listIsPre pat (c :: cs) || containsList pat (cs)

/-- Fuel-driven core of Python `str.replace`: replace every occurrence of
`pat` (assumed non-empty) by `rep`, scanning left to right.  The fuel is
the length of the scanned list, consumed one character per step, which
makes the recursion structural and kernel-reducible. -/
def replaceFuel (pat rep : List Char) : Nat → List Char → List Char
  | 0, l => l
  | _ + 1, [] => []
  | fuel + 1, c :: cs =>
    if listIsPre pat (c :: cs) then
      rep ++ replaceFuel pat rep fuel (List.drop (pat.length - 1) cs)
    else
      c :: replaceFuel pat rep fuel cs

/-- Python `s.replace(pat, rep)` for non-empty `pat` (the source only ever
replaces non-empty patterns; an empty pattern leaves the string unchanged
here). -/
def pyReplace (s pat rep : String) : String :=
  if pat.toList.isEmpty then s
  else ⟨replaceFuel pat.toList rep.toList s.toList.length s.toList⟩

/-- Python `s.strip()`: drop leading and trailing whitespace. -/
def pyStrip (s : String) : String :=
  ⟨((s.toList.dropWhile Char.isWhitespace).reverse.dropWhile
      Char.isWhitespace).reverse⟩

/-- Python `s.lower()` (ASCII case mapping). -/
def pyLower (s : String) : String := ⟨s.toList.map Char.toLower⟩

/-- Python `s.startswith(pat)`. -/
def pyStarts (s pat : String) : Bool := listIsPre pat.toList s.toList

/-- Python `s.split()` (no argument): maximal runs of non-whitespace
characters, empties discarded.  `acc` holds the current word reversed. -/
def wordsAux : List Char → List Char → List (List Char)
  | [], acc => if acc.isEmpty then [] else [acc.reverse]
  | c :: cs, acc =>
    if Char.isWhitespace c then
      if acc.isEmpty then wordsAux cs [] else acc.reverse :: wordsAux cs []
    else
      wordsAux cs (c :: acc)

/-- Python `' '.join(words)`. -/
def joinWords : List (List Char) → List Char
  | [] => []
  | [w] => w
  | w :: w2 :: ws => w ++ ' ' :: joinWords (w2 :: ws)

/-- `' '.join(s.split())` — the whitespace-collapsing cleanup applied to
company names (src/helper/JobScraper.py line 126). -/
def collapse_ws (s : String) : String := ⟨joinWords (wordsAux s.toList [])⟩

/-- Python `'month' in s.lower()` — the duration keyword test
(src/helper/JobScraper.py line 207). -/
def hasMonth (s : String) : Bool :=
  containsList "month".toList (pyLower s).toList

/-- Salary cleanup of src/helper/JobScraper.py line 176.  The pattern
removed there is the literal three-character sequence "â‚¹" (the UTF-8
bytes of the rupee sign mis-decoded as cp1252), exactly as it appears in
that source file, followed by comma removal and strip. -/
def clean_salary (s : String) : String :=
  pyStrip (pyReplace (pyReplace s "â‚¹" "") "," "")

/-- Salary cleanup of src/app.py line 254, which removes the genuine
rupee sign '₹' (U+20B9), followed by comma removal and strip. -/
def clean_salary_app (s : String) : String :=
  pyStrip (pyReplace (pyReplace s "₹" "") "," "")

/-! ### URL builder (src/helper/URLConverter.py) -/

/-- Uppercase hexadecimal digit for `n < 16`. -/
def hexUpper (n : Nat) : Char :=
  if n < 10 then Char.ofNat (48 + n) else Char.ofNat (55 + n)

/-- UTF-8 byte sequence of the code point `n` (always non-empty). -/
def utf8Bytes (n : Nat) : List Nat :=
  if n < 128 then [n]
  else if n < 2048 then [192 + n / 64, 128 + n % 64]
  else if n < 65536 then [224 + n / 4096, 128 + n / 64 % 64, 128 + n % 64]
  else [240 + n / 262144, 128 + n / 4096 % 64, 128 + n / 64 % 64,
        128 + n % 64]

/-- The characters `urllib.parse.quote(text, safe='-')` leaves untouched:
ASCII letters, digits, and `_ . - ~` (the always-safe set plus the
explicit safe character `'-'`, which is already always-safe). -/
def quoteSafeChar (c : Char) : Bool :=
  ('A' ≤ c && c ≤ 'Z') || ('a' ≤ c && c ≤ 'z') ||
  ('0' ≤ c && c ≤ '9') || c = '_' || c = '.' || c = '-' || c = '~'

/-- Percent-encoding of one byte, `"%XY"` with uppercase hex. -/
def percentBytes (b : Nat) : List Char := ['%', hexUpper (b / 16), hexUpper (b % 16)]

/-- `urllib.parse.quote` on one character: kept if safe, otherwise each
UTF-8 byte is percent-encoded. -/
def quoteCharList (c : Char) : List Char :=
  if quoteSafeChar c then [c]
  else ((utf8Bytes c.toNat).map percentBytes).flatten

/-- `urllib.parse.quote(s, safe='-')`. -/
def pyQuote (s : String) : String := ⟨(s.toList.map quoteCharList).flatten⟩

/-- `string_to_url` of src/helper/URLConverter.py lines 3–23: empty input
maps to `""`; otherwise strip, lowercase, turn spaces into hyphens, and
percent-encode with `'-'` safe. -/
def string_to_url (text : String) : String :=
  if text = "" then ""
  else pyQuote (pyReplace (pyLower (pyStrip text)) " " "-")

/-! ### Listing containers and the field extractor
(src/helper/JobScraper.py lines 67–232) -/

/-- Outcome of one BeautifulSoup `find` call on a container: an element
was found and its `get_text(strip=True)` is the given string, no element
matched, or the call raised an exception. -/
inductive FindResult where
  | found : String → FindResult
  | missing : FindResult
  | raise : FindResult
deriving Repr, DecidableEq

/-- One listing container.  `findClass s` models
`element.find(class_=s)`, `findTag s` models `element.find(s)`, `findId s`
models `element.find(id=s)`, `findOther s` the remaining dispatch branch
of `_safe_find_text`, and `findHrefLink` models
`job_element.find('a', href=True)` (where `found h` carries the `href`
attribute of the first matching anchor). -/
structure JobElement where
  findClass : String → FindResult
  findTag : String → FindResult
  findId : String → FindResult
  findOther : String → FindResult
  findHrefLink : FindResult

/-- The selector dispatch inside `_safe_find_text`
(src/helper/JobScraper.py lines 81–88). -/
def dispatchFind (e : JobElement) (selType sel : String) : FindResult :=
  if selType = "class" then e.findClass sel
  else if selType = "tag" then e.findTag sel
  else if selType = "id" then e.findId sel
  else e.findOther sel

/-- `_safe_find_text` (src/helper/JobScraper.py lines 67–96): the default
on a missing element, on empty extracted text, and on any exception
raised by the lookup (caught by the `except` at line 94). -/
def safe_find_text (e : JobElement) (selType sel dflt : String) : String :=
  match dispatchFind e selType sel with
  | .found t => if t = "" then dflt else t
  | .missing => dflt
  | .raise => dflt

/-- The per-field candidate loop of `_extract_job_data`: each candidate is
resolved with default `""`, and the first value that is non-empty and not
the literal text `"N/A"` is taken (`if value and value != "N/A": …;
break`). -/
def firstAccepted (e : JobElement) : List (String × String) → Option String
  | [] => none
  | (t, s) :: rest =>
    let v := safe_find_text e t s ""
    if v ≠ "" ∧ v ≠ "N/A" then some v else firstAccepted e rest

/-- The duration candidate loop (src/helper/JobScraper.py lines 205–209),
which additionally requires `'month' in value.lower()`. -/
def firstAcceptedDuration (e : JobElement) : List (String × String) → Option String
  | [] => none
  | (t, s) :: rest =>
    let v := safe_find_text e t s ""
    if v ≠ "" ∧ v ≠ "N/A" ∧ hasMonth v = true then some v
    else firstAcceptedDuration e rest

/-- Company-name selector candidates (src/helper/JobScraper.py 114–120). -/
def company_selectors : List (String × String) :=
  [("class", "company_name"), ("class", "company"), ("tag", "h3"),
   ("class", "heading_4_5 profile"), ("class", "profile_name")]

/-- Job-title selector candidates (src/helper/JobScraper.py 133–138). -/
def title_selectors : List (String × String) :=
  [("class", "profile"), ("class", "job-title"), ("class", "profile_name"),
   ("tag", "h4")]

/-- Location selector candidates (src/helper/JobScraper.py 150–154). -/
def location_selectors : List (String × String) :=
  [("class", "location_link"), ("class", "locations"), ("class", "location")]

/-- Salary selector candidates (src/helper/JobScraper.py 166–170). -/
def salary_selectors : List (String × String) :=
  [("class", "stipend"), ("class", "salary"), ("class", "other_detail_item")]

/-- Job-type selector candidates (src/helper/JobScraper.py 184–188). -/
def type_selectors : List (String × String) :=
  [("class", "job_type"), ("class", "other_label"),
   ("class", "internship_type")]

/-- Duration selector candidates (src/helper/JobScraper.py 200–203). -/
def duration_selectors : List (String × String) :=
  [("class", "duration"), ("class", "other_detail_item")]

/-- The record built by `_extract_job_data`.  A field is `none` exactly
when the corresponding dictionary key is absent; the theorems show this
never survives to the returned record. -/
structure JobDict where
  company_name : Option String
  job_title : Option String
  company_location : Option String
  job_salary : Option String
  job_type : Option String
  job_duration : Option String
  job_link : Option String
deriving DecidableEq, Repr

/-- The post-loop patch `if not job_data.get(key): job_data[key] = dflt`:
an absent or empty value becomes the default sentinel. -/
def fixEmpty (v : Option String) (dflt : String) : Option String :=
  match v with
  | none => some dflt
  | some s => if s = "" then some dflt else some s

/-- The scraper's base URL (src/helper/JobScraper.py line 17). -/
def base_url : String := "https://internshala.com"

/-- `urllib.parse.urljoin(base_url, href)` for an `href` that starts with
`'/'`: a protocol-relative reference `"//host/…"` keeps only the scheme of
the base, any other root-relative path is appended to the base origin. -/
def urljoin_abs (href : String) : String :=
  if pyStarts href "//" then "https:" ++ href else base_url ++ href

/-- The detail-link step of `_extract_job_data`
(src/helper/JobScraper.py lines 214–223): the first anchor with an `href`
is used, root-relative hrefs are resolved with `urljoin`, absence gives
`"N/A"`.  A raise at this `find` call reaches the outer `except` of
`_extract_job_data` (line 225), whose handler fills the then-missing
`job_link` key with `"N/A"`; every other key is already populated at that
point, so the handler touches nothing else. -/
def extract_link (e : JobElement) : Option String :=
  match e.findHrefLink with
  | .found href =>
    some (if pyStarts href "/" then urljoin_abs href else href)
  | .missing => some "N/A"
  | .raise => some "N/A"

/-- `_extract_job_data` (src/helper/JobScraper.py lines 98–232):
candidate loops per field, field-specific cleanup (whitespace collapse for
the company name, currency/comma stripping for the salary, the month
keyword filter for the duration), post-loop defaults, and the detail
link. -/
def extract_job_data (e : JobElement) : JobDict where
  company_name :=
    fixEmpty ((firstAccepted e company_selectors).map collapse_ws) "N/A"
  job_title := fixEmpty (firstAccepted e title_selectors) "N/A"
  company_location := fixEmpty (firstAccepted e location_selectors) "N/A"
  job_salary :=
    fixEmpty ((firstAccepted e salary_selectors).map clean_salary)
      "Not specified"
  job_type := fixEmpty (firstAccepted e type_selectors) "Not specified"
  job_duration :=
    fixEmpty (firstAcceptedDuration e duration_selectors) "Not specified"
  job_link := extract_link e

/-! ### Fetching and pagination (src/helper/JobScraper.py lines 47–65 and
234–313) -/

/-- A parsed page body: `select sel` models `soup.select(sel)`, the list
of containers matching a CSS selector. -/
structure Soup where
  select : String → List JobElement

/-- An HTTP response: status code and parsed body
(`BeautifulSoup(response.text, 'lxml')`). -/
structure Response where
  status : Nat
  soup : Soup

/-- What `session.get(url)` produces: a response, or a raised
`requests.exceptions.RequestException` (`netError`), which covers
network-level failures and the `RetryError` raised once the adapter's
retry budget (`Retry(total=3, …)`) is exhausted. -/
inductive FetchOutcome where
  | response : Response → FetchOutcome
  | netError : FetchOutcome

/-- Does `response.raise_for_status()` raise?  It raises `HTTPError`
exactly for client-error (4xx) and server-error (5xx) statuses. -/
def raise_for_status_raises (status : Nat) : Bool :=
  400 ≤ status && status < 600

/-- `_get_page` (src/helper/JobScraper.py lines 47–65): `session.get`
followed by `raise_for_status`, with every `RequestException` caught and
turned into `None`.  Both failure shapes therefore yield `none`; the
function is total — no exception escapes. -/
def get_page (o : FetchOutcome) : Option Response :=
  match o with
  | .netError => none
  | .response r => if raise_for_status_raises r.status then none else some r

/-- The listing-locator selector cascade
(src/helper/JobScraper.py lines 269–275). -/
def job_selectors : List String :=
  ["div.internship_meta", "div.individual_internship", "div.container-fluid",
   "div.job-card", ".search_results .internship_meta"]

/-- The locator loop (src/helper/JobScraper.py lines 277–282): the first
selector whose `soup.select` result is non-empty wins; if none matches the
result is the empty list. -/
def selectFirst (s : Soup) : List String → List JobElement
  | [] => []
  | sel :: rest =>
    let js := s.select sel
    if js.isEmpty then selectFirst s rest else js

/-- Listing Locator: containers found on a page. -/
def locateListings (s : Soup) : List JobElement := selectFirst s job_selectors

/-- The noise filter of src/helper/JobScraper.py lines 302–303:
`job_data.get('company_name', 'N/A') != 'N/A' or
job_data.get('job_title', 'N/A') != 'N/A'`. -/
def keep_job (d : JobDict) : Bool :=
  (d.company_name.getD "N/A" != "N/A") || (d.job_title.getD "N/A" != "N/A")

/-- The filtered records one located page contributes
(src/helper/JobScraper.py lines 297–304). -/
def page_listing_records (soup : Soup) : List JobDict :=
  ((locateListings soup).map extract_job_data).filter keep_job

/-- Per-page URL (src/helper/JobScraper.py lines 254–257): the base search
URL for page 1, `…/page-n` beyond. -/
def page_url (base : String) (page : Int) : String :=
  if page = 1 then base else base ++ "/page-" ++ toString page

/-- The search URL assembled at src/helper/JobScraper.py lines 249–251. -/
def search_base_url (position location : String) : String :=
  base_url ++ "/internships/" ++ string_to_url position ++
    "-internship-in-" ++ string_to_url location

/-- Python `range(a, b)` over integers. -/
def pythonRange (a b : Int) : List Int :=
  (List.range (b - a).toNat).map (fun i : Nat => a + (i : Int))

/-- The page loop of `scrape_jobs` (src/helper/JobScraper.py lines
253–311) over an explicit list of page numbers.  Besides the aggregated
records it returns, as instrumentation, the URLs fetched in order.  A
failed fetch (`None` from `_get_page`) skips the page (`continue`); a page
whose locator finds nothing stops the loop (`break`); otherwise the page's
filtered records are appended and the loop continues. -/
def scrapeLoop (world : String → FetchOutcome) (base : String) :
    List Int → List JobDict × List String
  | [] => ([], [])
  | page :: rest =>
    let url := page_url base page
    match get_page (world url) with
    | none =>
      let r := scrapeLoop world base rest
      (r.1, url :: r.2)
    | some resp =>
      let jobs := locateListings resp.soup
      if jobs.isEmpty then ([], [url])
      else
        let page_jobs := (jobs.map extract_job_data).filter keep_job
        let r := scrapeLoop world base rest
        (page_jobs ++ r.1, url :: r.2)

/-- `scrape_jobs` (src/helper/JobScraper.py lines 234–313), instrumented
with the list of fetched URLs as second component. -/
def scrape_jobs (world : String → FetchOutcome) (position location : String)
    (max_pages : Int) : List JobDict × List String :=
  scrapeLoop world (search_base_url position location)
    (pythonRange 1 (max_pages + 1))

/-- Reference aggregation: the records page `page` contributes when it is
reached and processed (nothing on a failed fetch). -/
def page_records (world : String → FetchOutcome) (base : String)
    (page : Int) : List JobDict :=
  match get_page (world (page_url base page)) with
  | none => []
  | some resp => page_listing_records resp.soup

/-! ### Concrete containers, pages and worlds used by the witnesses -/

/-- A container with a company name, no title, and a root-relative link. -/
def elemA : JobElement where
  findClass := fun s => if s = "company_name" then .found "Acme  Corp" else .missing
  findTag := fun _ => .missing
  findId := fun _ => .missing
  findOther := fun _ => .missing
  findHrefLink := .found "/internship/detail/123"

/-- A container on which every DOM access raises. -/
def elemRaise : JobElement where
  findClass := fun _ => .raise
  findTag := fun _ => .raise
  findId := fun _ => .raise
  findOther := fun _ => .raise
  findHrefLink := .raise

/-- A container whose duration candidates resolve but lack the keyword. -/
def elemWeeks : JobElement where
  findClass := fun s =>
    if s = "duration" then .found "6 weeks"
    else if s = "company_name" then .found "Beta" else .missing
  findTag := fun _ => .missing
  findId := fun _ => .missing
  findOther := fun _ => .missing
  findHrefLink := .missing

/-- A page holding the single container `elemA`. -/
def soupA : Soup where
  select := fun sel => if sel = "div.internship_meta" then [elemA] else []

/-- A page on which no locator selector matches. -/
def soupEmpty : Soup where
  select := fun _ => []

/-- A container whose stipend element carries the raw salary text
`"₹10,000/month"` of the spec's example. -/
def elemStipend : JobElement where
  findClass := fun s => if s = "stipend" then .found "₹10,000/month" else .missing
  findTag := fun _ => .missing
  findId := fun _ => .missing
  findOther := fun _ => .missing
  findHrefLink := .missing

/-- A two-page world for the C3 witness: the base search URL serves a page
holding `elemA`; every other URL serves a page on which no locator
selector matches. -/
def worldStopAt2 : String → FetchOutcome := fun url =>
  if url = search_base_url "a" "b" then .response ⟨200, soupA⟩
  else .response ⟨200, soupEmpty⟩

/-! ### Helper lemmas -/

/-- The post-loop patch always yields a present value. -/
theorem fixEmpty_isSome (v : Option String) (d : String) :
    (fixEmpty v d).isSome = true := by
  cases v with
  | none => rfl
  | some s =>
    by_cases h : s = "" <;> simp [fixEmpty, h]

/-- The detail-link step always yields a present value. -/
theorem extract_link_isSome (e : JobElement) :
    (extract_link e).isSome = true := by
  cases h : e.findHrefLink <;> simp [extract_link, h]

/-! ### C1 -/

/-- C1: for every listing container, the record returned by
`_extract_job_data` has all seven fields present (holding either an
extracted value or the field's sentinel), on the normal path and on the
exception path alike — the exception path is the `raise` outcome of the
container's accessors, absorbed inside `safe_find_text` and
`extract_link`. -/
theorem extract_all_fields_populated (e : JobElement) :
    ((extract_job_data e).company_name).isSome = true ∧
    ((extract_job_data e).job_title).isSome = true ∧
    ((extract_job_data e).company_location).isSome = true ∧
    ((extract_job_data e).job_salary).isSome = true ∧
    ((extract_job_data e).job_type).isSome = true ∧
    ((extract_job_data e).job_duration).isSome = true ∧
    ((extract_job_data e).job_link).isSome = true :=
  ⟨fixEmpty_isSome _ _, fixEmpty_isSome _ _, fixEmpty_isSome _ _,
   fixEmpty_isSome _ _, fixEmpty_isSome _ _, fixEmpty_isSome _ _,
   extract_link_isSome e⟩

/-! ### C2 -/

/-- C2: evaluation of the code at the claim's own example input.
`helper/JobScraper.py` replaces the literal three-character mojibake
sequence `"â‚¹"`, not the rupee sign, so the extracted salary for raw
`"₹10,000/month"` still contains `'₹'`; `app.py` line 254 replaces the
genuine `'₹'` and produces the value the claim describes; and the
helper's replace does strip the mojibake sequence when it is present. -/
theorem salary_mojibake_divergence :
    (extract_job_data elemStipend).job_salary = some "₹10000/month" ∧
    clean_salary_app "₹10,000/month" = "10000/month" ∧
    clean_salary "â‚¹10,000/month" = "10000/month" := by
  decide

/-! ### C5 -/

/-- C5: exceptions raised during field extraction are contained.  First,
any raise inside a `_safe_find_text` lookup is caught there and yields the
passed default, so the candidate loop simply moves on.  Second, a
container all of whose accessors raise still produces the complete record
of per-field sentinels — `"N/A"` for company, title, location and link,
`"Not specified"` for salary, type and duration — and since
`extract_job_data` is a total function into `JobDict`, no exception
crosses its boundary. -/
theorem field_exception_contained :
    (∀ (e : JobElement) (t s d : String),
       dispatchFind e t s = .raise → safe_find_text e t s d = d) ∧
    ∀ e : JobElement,
      (∀ s, e.findClass s = .raise) → (∀ s, e.findTag s = .raise) →
      (∀ s, e.findId s = .raise) → (∀ s, e.findOther s = .raise) →
      e.findHrefLink = .raise →
      extract_job_data e =
        ⟨some "N/A", some "N/A", some "N/A", some "Not specified",
         some "Not specified", some "Not specified", some "N/A"⟩ := by
  constructor
  · intro e t s d h
    simp [safe_find_text, h]
  · intro e h1 h2 h3 h4 h5
    have hd : ∀ t s, dispatchFind e t s = .raise := by
      intro t s
      simp [dispatchFind, h1, h2, h3, h4]
    have hsafe : ∀ t s d, safe_find_text e t s d = d := by
      intro t s d
      simp [safe_find_text, hd]
    have hfa : ∀ l, firstAccepted e l = none := by
      intro l
      induction l with
      | nil => rfl
      | cons p rest ih =>
        obtain ⟨t, s⟩ := p
        simp [firstAccepted, hsafe, ih]
    have hfd : ∀ l, firstAcceptedDuration e l = none := by
      intro l
      induction l with
      | nil => rfl
      | cons p rest ih =>
        obtain ⟨t, s⟩ := p
        simp [firstAcceptedDuration, hsafe, ih]
    simp [extract_job_data, hfa, hfd, fixEmpty, extract_link, h5]

/-- C5 witness: the contained-exception theorem applied to the concrete
all-raising container. -/
theorem field_exception_contained_witness :
    safe_find_text elemRaise "class" "company_name" "" = "" ∧
    extract_job_data elemRaise =
      ⟨some "N/A", some "N/A", some "N/A", some "Not specified",
       some "Not specified", some "Not specified", some "N/A"⟩ :=
  ⟨field_exception_contained.1 elemRaise "class" "company_name" "" rfl,
   field_exception_contained.2 elemRaise (fun _ => rfl) (fun _ => rfl)
     (fun _ => rfl) (fun _ => rfl) rfl⟩

/-! ### C7 -/

/-- C7: `string_to_url` behaviour.  The two example inputs of the spec,
the blank-input rule (any input that strips to the empty string maps to
the empty slug), the fact that `'-'` is a safe character and survives
quoting unchanged, the fact that every non-safe character is
percent-encoded (its encoding starts with `'%'`), and a slug mixing
spaces, hyphen and special characters.  Determinism and freedom from side
effects hold by construction: the embedding is a pure function. -/
theorem string_to_url_slug :
    string_to_url "Data Analyst" = "data-analyst" ∧
    string_to_url "" = "" ∧
    (∀ s : String, pyStrip s = "" → string_to_url s = "") ∧
    quoteCharList '-' = ['-'] ∧
    (∀ c : Char, quoteSafeChar c = false →
       (quoteCharList c).head? = some '%') ∧
    string_to_url "C++ & Java" = "c%2B%2B-%26-java" := by
  refine ⟨by decide, by decide, ?_, by decide, ?_, by decide⟩
  · intro s h
    unfold string_to_url
    split
    · rfl
    · rw [h]
      rfl
  · intro c hc
    have hb : ∃ b bs, utf8Bytes c.toNat = b :: bs := by
      unfold utf8Bytes
      split
      · exact ⟨_, _, rfl⟩
      · split
        · exact ⟨_, _, rfl⟩
        · split
          · exact ⟨_, _, rfl⟩
          · exact ⟨_, _, rfl⟩
    obtain ⟨b, bs, hb⟩ := hb
    simp [quoteCharList, hc, hb, percentBytes]

/-- C7 witness: the slug theorem applied to a whitespace-only input and to
the non-safe character `' '`. -/
theorem string_to_url_slug_witness :
    string_to_url " " = "" ∧ (quoteCharList ' ').head? = some '%' :=
  ⟨string_to_url_slug.2.2.1 " " (by decide),
   string_to_url_slug.2.2.2.2.1 ' ' (by decide)⟩

/-! ### C8 -/

/-- C8: the duration field only ever holds a candidate containing the
keyword `"month"` (case-insensitively).  A candidate whose text lacks the
keyword is skipped and the remaining candidates are tried in order, and
whenever the extracted duration is not the default `"Not specified"` it
contains the keyword. -/
theorem duration_requires_month :
    (∀ (e : JobElement) (t s : String) (rest : List (String × String)),
       hasMonth (safe_find_text e t s "") = false →
       firstAcceptedDuration e ((t, s) :: rest) =
         firstAcceptedDuration e rest) ∧
    ∀ (e : JobElement) (v : String),
      (extract_job_data e).job_duration = some v →
      v = "Not specified" ∨ hasMonth v = true := by
  constructor
  · intro e t s rest h
    simp [firstAcceptedDuration, h]
  · intro e v h
    have key : ∀ (l : List (String × String)) (w : String),
        firstAcceptedDuration e l = some w → hasMonth w = true := by
      intro l
      induction l with
      | nil => intro w hw; simp [firstAcceptedDuration] at hw
      | cons p rest ih =>
        obtain ⟨t, s⟩ := p
        intro w hw
        simp only [firstAcceptedDuration] at hw
        split at hw
        · rename_i hcond
          cases hw
          exact hcond.2.2
        · exact ih w hw
    have h' : fixEmpty (firstAcceptedDuration e duration_selectors)
        "Not specified" = some v := h
    cases hfd : firstAcceptedDuration e duration_selectors with
    | none =>
      rw [hfd] at h'
      simp [fixEmpty] at h'
      exact Or.inl h'.symm
    | some w =>
      rw [hfd] at h'
      by_cases hw : w = ""
      · subst hw
        simp [fixEmpty] at h'
        exact Or.inl h'.symm
      · simp [fixEmpty, hw] at h'
        subst h'
        exact Or.inr (key _ _ hfd)

/-- C8 witness: the duration theorem applied to the concrete container
whose first duration candidate resolves to `"6 weeks"` (no keyword) and
whose remaining candidate is missing. -/
theorem duration_requires_month_witness :
    firstAcceptedDuration elemWeeks
        [("class", "duration"), ("class", "other_detail_item")] =
      firstAcceptedDuration elemWeeks [("class", "other_detail_item")] ∧
    ("Not specified" = "Not specified" ∨ hasMonth "Not specified" = true) :=
  ⟨duration_requires_month.1 elemWeeks "class" "duration"
     [("class", "other_detail_item")] (by decide),
   duration_requires_month.2 elemWeeks "Not specified" (by decide)⟩

/-! ### C9 -/

/-- C9: the detail link is taken from the first anchor with an `href`
found in the container; a root-relative href is resolved with `urljoin`
against the base origin, any other href is used as-is, and a container
without such an anchor gets `"N/A"`; the spec's example href resolves to
the absolute Internshala URL. -/
theorem detail_link_resolution :
    (∀ (e : JobElement) (href : String), e.findHrefLink = .found href →
       (extract_job_data e).job_link =
         some (if pyStarts href "/" then urljoin_abs href else href)) ∧
    (∀ e : JobElement, e.findHrefLink = .missing →
       (extract_job_data e).job_link = some "N/A") ∧
    urljoin_abs "/internship/detail/123" =
      "https://internshala.com/internship/detail/123" := by
  refine ⟨?_, ?_, by decide⟩
  · intro e href h
    show extract_link e = _
    simp [extract_link, h]
  · intro e h
    show extract_link e = _
    simp [extract_link, h]

/-- C9 witness: the link theorem applied to `elemA` (root-relative href)
and to `elemWeeks` (no anchor). -/
theorem detail_link_resolution_witness :
    (extract_job_data elemA).job_link =
      some (if pyStarts "/internship/detail/123" "/" then
              urljoin_abs "/internship/detail/123"
            else "/internship/detail/123") ∧
    (extract_job_data elemWeeks).job_link = some "N/A" :=
  ⟨detail_link_resolution.1 elemA "/internship/detail/123" rfl,
   detail_link_resolution.2.1 elemWeeks rfl⟩

/-! ### C10 -/

/-- C10: with `max_pages ≤ 0` the page loop `range(1, max_pages + 1)` is
empty, so `scrape_jobs` returns the empty record list and fetches no URL
at all, even though the spec's `SearchQuery` declares `maxPages ≥ 1`. -/
theorem nonpositive_max_pages_no_fetch
    (world : String → FetchOutcome) (position location : String)
    (max_pages : Int) (h : max_pages ≤ 0) :
    scrape_jobs world position location max_pages = ([], []) := by
  unfold scrape_jobs pythonRange
  rw [show (max_pages + 1 - 1).toNat = 0 by omega]
  rfl

/-- C10 witness: the theorem applied at `max_pages = 0` over a network
that always fails. -/
theorem nonpositive_max_pages_no_fetch_witness :
    scrape_jobs (fun _ => FetchOutcome.netError) "python developer"
      "bangalore" 0 = ([], []) :=
  nonpositive_max_pages_no_fetch (fun _ => FetchOutcome.netError)
    "python developer" "bangalore" 0 (by decide)

/-! ### C4 -/

/-- C4: a fetch that ends in an HTTP error status (4xx/5xx raised by
`raise_for_status`), in a raised network-level/retry-exhaustion exception,
or in any other `RequestException` returns `None` instead of letting the
exception escape (`get_page` is a total function into `Option Response`),
and the page loop treats a `None` fetch as skip-and-continue: the failed
page contributes no records, its URL is logged, and the remaining pages
are processed exactly as they would have been. -/
theorem failed_fetch_skips_page :
    (∀ r : Response, 400 ≤ r.status → r.status < 600 →
       get_page (.response r) = none) ∧
    get_page .netError = none ∧
    ∀ (world : String → FetchOutcome) (base : String) (p : Int)
      (rest : List Int), get_page (world (page_url base p)) = none →
      (scrapeLoop world base (p :: rest)).1 =
          (scrapeLoop world base rest).1 ∧
      (scrapeLoop world base (p :: rest)).2 =
          page_url base p :: (scrapeLoop world base rest).2 := by
  refine ⟨?_, rfl, ?_⟩
  · intro r h1 h2
    have hb : raise_for_status_raises r.status = true := by
      simp only [raise_for_status_raises, Bool.and_eq_true, decide_eq_true_eq]
      omega
    simp [get_page, hb]
  · intro world base p rest h
    constructor <;> simp [scrapeLoop, h]

/-- C4 witness: the theorem applied to a concrete 404 response and to a
page-1 fetch over a network that always raises. -/
theorem failed_fetch_skips_page_witness :
    get_page (.response ⟨404, soupEmpty⟩) = none ∧
    (scrapeLoop (fun _ => FetchOutcome.netError) "x" ((1 : Int) :: [])).1 =
        (scrapeLoop (fun _ => FetchOutcome.netError) "x" ([] : List Int)).1 ∧
    (scrapeLoop (fun _ => FetchOutcome.netError) "x" ((1 : Int) :: [])).2 =
        page_url "x" 1 ::
          (scrapeLoop (fun _ => FetchOutcome.netError) "x" ([] : List Int)).2 :=
  ⟨failed_fetch_skips_page.1 ⟨404, soupEmpty⟩ (by decide) (by decide),
   failed_fetch_skips_page.2.2 (fun _ => FetchOutcome.netError) "x" 1 []
     rfl⟩

/-! ### C6 -/

/-- Every record aggregated by the page loop passes the noise filter. -/
theorem mem_scrapeLoop_keep (world : String → FetchOutcome) (base : String) :
    ∀ (pages : List Int) (d : JobDict),
      d ∈ (scrapeLoop world base pages).1 → keep_job d = true := by
  intro pages
  induction pages with
  | nil => intro d h; simp [scrapeLoop] at h
  | cons p rest ih =>
    intro d h
    cases hg : get_page (world (page_url base p)) with
    | none =>
      rw [show scrapeLoop world base (p :: rest) =
            ((scrapeLoop world base rest).1,
             page_url base p :: (scrapeLoop world base rest).2) by
          simp [scrapeLoop, hg]] at h
      exact ih d h
    | some resp =>
      by_cases he : (locateListings resp.soup).isEmpty
      · rw [show scrapeLoop world base (p :: rest) =
              ([], [page_url base p]) by simp [scrapeLoop, hg, he]] at h
        simp at h
      · rw [show scrapeLoop world base (p :: rest) =
              (((locateListings resp.soup).map extract_job_data).filter
                  keep_job ++ (scrapeLoop world base rest).1,
               page_url base p :: (scrapeLoop world base rest).2) by
            simp [scrapeLoop, hg, he]] at h
        rcases List.mem_append.mp h with hmem | hmem
        · exact (List.mem_filter.mp hmem).2
        · exact ih d hmem

/-- C6: soundness and completeness of the noise filter.  Every record in
the aggregated result of `scrape_jobs` has company name or job title
different from `"N/A"` (so a record with both equal to `"N/A"` is never
included), and conversely every located container whose extracted record
passes the filter appears among the page's contributed records. -/
theorem noise_filter_sound_complete :
    (∀ (world : String → FetchOutcome) (position location : String)
       (max_pages : Int) (d : JobDict),
       d ∈ (scrape_jobs world position location max_pages).1 →
       d.company_name.getD "N/A" ≠ "N/A" ∨ d.job_title.getD "N/A" ≠ "N/A") ∧
    ∀ (soup : Soup) (e : JobElement), e ∈ locateListings soup →
      keep_job (extract_job_data e) = true →
      extract_job_data e ∈ page_listing_records soup := by
  constructor
  · intro world position location max_pages d h
    have hk := mem_scrapeLoop_keep world (search_base_url position location)
      (pythonRange 1 (max_pages + 1)) d h
    simpa [keep_job] using hk
  · intro soup e he hk
    exact List.mem_filter.mpr ⟨List.mem_map_of_mem _ he, hk⟩

/-- C6 witness: the filter theorem applied to the record extracted from
`elemA` on the one-page world built from `soupA`. -/
theorem noise_filter_sound_complete_witness :
    ((extract_job_data elemA).company_name.getD "N/A" ≠ "N/A" ∨
      (extract_job_data elemA).job_title.getD "N/A" ≠ "N/A") ∧
    extract_job_data elemA ∈ page_listing_records soupA :=
  ⟨noise_filter_sound_complete.1 (fun _ => .response ⟨200, soupA⟩) "a" "b" 1
     (extract_job_data elemA) (by decide),
   noise_filter_sound_complete.2 soupA elemA (List.Mem.head _) (by decide)⟩

/-! ### C3 -/

/-- `range(a, a)` is empty. -/
theorem pythonRange_self (a : Int) : pythonRange a a = [] := by
  unfold pythonRange
  rw [show (a - a).toNat = 0 by omega]
  rfl

/-- Peeling the first page off `range(a, b)` when it is non-empty. -/
theorem pythonRange_cons (a b : Int) (h : a < b) :
    pythonRange a b = a :: pythonRange (a + 1) b := by
  unfold pythonRange
  rw [show (b - a).toNat = (b - (a + 1)).toNat + 1 by omega,
      List.range_succ_eq_map]
  simp only [List.map_cons, List.map_map, Nat.cast_zero, add_zero]
  congr 1
  apply List.map_congr_left
  intro i _
  simp only [Function.comp_apply]
  push_cast
  ring

/-- Splitting `range(a, b)` at an interior point `a + k`. -/
theorem pythonRange_split (a b : Int) (k : Nat) (hk : a + k ≤ b) :
    pythonRange a b = pythonRange a (a + k) ++ pythonRange (a + k) b := by
  induction k generalizing a with
  | zero =>
    rw [show a + ((0 : Nat) : Int) = a by push_cast; ring, pythonRange_self,
        List.nil_append]
  | succ n ih =>
    have h1 : a < b := by omega
    have h2 : (a + 1) + (n : Int) ≤ b := by push_cast at hk ⊢; omega
    have hcast : a + ((n + 1 : Nat) : Int) = (a + 1) + (n : Int) := by
      push_cast
      ring
    rw [pythonRange_cons a b h1, ih (a + 1) h2, hcast,
        pythonRange_cons a ((a + 1) + (n : Int)) (by omega)]
    rfl

/-- Membership in `range(a, b)`. -/
theorem mem_pythonRange {m a b : Int} :
    m ∈ pythonRange a b ↔ a ≤ m ∧ m < b := by
  constructor
  · intro h
    unfold pythonRange at h
    obtain ⟨i, hi, he⟩ := List.mem_map.mp h
    rw [List.mem_range] at hi
    omega
  · intro h
    unfold pythonRange
    refine List.mem_map.mpr ⟨(m - a).toNat, ?_, ?_⟩
    · rw [List.mem_range]
      omega
    · omega

/-- The page loop over `l1 ++ n :: l2`: if every page of `l1` either fails
to fetch or locates at least one listing, and page `n` fetches
successfully but locates none, the loop stops at `n` — it fetches exactly
the URLs of `l1 ++ [n]` and aggregates exactly the per-page records of
those pages. -/
theorem scrapeLoop_stop (world : String → FetchOutcome) (base : String)
    (l1 : List Int) (n : Int) (l2 : List Int)
    (hgo : ∀ m ∈ l1, ∀ resp : Response,
       get_page (world (page_url base m)) = some resp →
       (locateListings resp.soup).isEmpty = false)
    (resp : Response)
    (hn : get_page (world (page_url base n)) = some resp)
    (hempty : (locateListings resp.soup).isEmpty = true) :
    scrapeLoop world base (l1 ++ n :: l2) =
      (((l1 ++ [n]).map (page_records world base)).flatten,
       (l1 ++ [n]).map (page_url base)) := by
  induction l1 with
  | nil =>
    have hl : locateListings resp.soup = [] := by
      simpa using hempty
    simp [scrapeLoop, hn, hempty, page_records, page_listing_records, hl]
  | cons p l1' ih =>
    have hrest : ∀ m ∈ l1', ∀ resp : Response,
        get_page (world (page_url base m)) = some resp →
        (locateListings resp.soup).isEmpty = false :=
      fun m hm => hgo m (List.mem_cons_of_mem p hm)
    have hstep := ih hrest
    cases hg : get_page (world (page_url base p)) with
    | none =>
      rw [show scrapeLoop world base ((p :: l1') ++ n :: l2) =
            ((scrapeLoop world base (l1' ++ n :: l2)).1,
             page_url base p :: (scrapeLoop world base (l1' ++ n :: l2)).2)
          by simp [scrapeLoop, hg], hstep]
      simp [page_records, hg]
    | some resp2 =>
      have hne := hgo p (List.mem_cons_self p l1') resp2 hg
      rw [show scrapeLoop world base ((p :: l1') ++ n :: l2) =
            (((locateListings resp2.soup).map extract_job_data).filter
                keep_job ++ (scrapeLoop world base (l1' ++ n :: l2)).1,
             page_url base p ::
               (scrapeLoop world base (l1' ++ n :: l2)).2)
          by simp [scrapeLoop, hg, hne], hstep]
      simp [page_records, hg, page_listing_records]

/-- C3: pagination short-circuit.  If every earlier page either failed to
fetch or located at least one listing, and page `n` (within the page
range) fetches successfully but its Listing Locator returns zero listings,
then `scrape_jobs` fetches exactly the URLs of pages `1 … n` — so no page
beyond `n`, in particular page `n + 1`, is ever requested — and returns
exactly the records aggregated from pages `1` through `n`. -/
theorem pagination_short_circuit
    (world : String → FetchOutcome) (position location : String)
    (max_pages n : Int) (h1 : 1 ≤ n) (h2 : n ≤ max_pages)
    (hgo : ∀ m : Int, 1 ≤ m → m < n → ∀ resp : Response,
       get_page (world (page_url (search_base_url position location) m)) =
         some resp →
       (locateListings resp.soup).isEmpty = false)
    (hstop : ∃ resp : Response,
       get_page (world (page_url (search_base_url position location) n)) =
         some resp ∧
       (locateListings resp.soup).isEmpty = true) :
    scrape_jobs world position location max_pages =
      (((pythonRange 1 (n + 1)).map
          (page_records world (search_base_url position location))).flatten,
       (pythonRange 1 (n + 1)).map
         (page_url (search_base_url position location))) := by
  obtain ⟨resp, hn, hempty⟩ := hstop
  have e1 : pythonRange 1 (max_pages + 1) =
      pythonRange 1 n ++ n :: pythonRange (n + 1) (max_pages + 1) := by
    have hs := pythonRange_split 1 (max_pages + 1) (n - 1).toNat (by omega)
    rw [show (1 : Int) + ((n - 1).toNat : Int) = n by omega] at hs
    rw [hs, pythonRange_cons n (max_pages + 1) (by omega)]
  have e3 : pythonRange 1 (n + 1) = pythonRange 1 n ++ [n] := by
    have hs := pythonRange_split 1 (n + 1) (n - 1).toNat (by omega)
    rw [show (1 : Int) + ((n - 1).toNat : Int) = n by omega] at hs
    rw [hs, pythonRange_cons n (n + 1) (by omega), pythonRange_self]
  have hgo' : ∀ m ∈ pythonRange 1 n, ∀ resp : Response,
      get_page (world (page_url (search_base_url position location) m)) =
        some resp →
      (locateListings resp.soup).isEmpty = false := by
    intro m hm
    have := mem_pythonRange.mp hm
    exact hgo m this.1 this.2
  unfold scrape_jobs
  rw [e1, scrapeLoop_stop world (search_base_url position location)
        (pythonRange 1 n) n (pythonRange (n + 1) (max_pages + 1)) hgo'
        resp hn hempty, e3]

/-- C3 witness: the short-circuit theorem at `max_pages = 3` with the
locator finding nothing on page 2, so page 3 is never fetched. -/
theorem pagination_short_circuit_witness :
    scrape_jobs worldStopAt2 "a" "b" 3 =
      (((pythonRange 1 3).map
          (page_records worldStopAt2 (search_base_url "a" "b"))).flatten,
       (pythonRange 1 3).map (page_url (search_base_url "a" "b"))) :=
  pagination_short_circuit worldStopAt2 "a" "b" 3 2 (by decide) (by decide)
    (by
      intro m hm1 hm2
      have hm : m = 1 := by omega
      subst hm
      intro resp hr
      have hr2 : some (⟨200, soupA⟩ : Response) = some resp := hr
      cases hr2
      rfl)
    ⟨⟨200, soupEmpty⟩, rfl, rfl⟩
